import Mathlib

/-
Shallow embedding of the media-streaming subsystem of `src/app.py`
(functions `validate_video_file`, `safe_convert_video`, `convert_video_to_mp4`
as a strategy outcome, the `/stream/<filename>` route handler `stream`, and
the validation gate of the `/upload` route).

Modelling conventions:
- Python dictionaries returned by `validate_video_file` are association
  lists `List (String × PyVal)`; `dict.get(k, d)` is `dictGet`, `dict[k]`
  is `dictLookup` (a `none` result corresponds to a `KeyError`, which the
  caller's `except` clause turns into a flash + redirect).
- File-system and subprocess effects are an explicit environment:
  `StreamEnv.fileContent p` is the byte content on disk at path `p`
  (`os.path.getsize` is its length, `open(p,'rb').read` reads from it),
  `StreamEnv.readable` is `os.access(p, os.R_OK)`, and `conv1`/`conv2` are
  the outcomes of the first two conversion strategies of
  `safe_convert_video` (`none` = the strategy raised).
- Bytes are `Nat`, Python ints are `Int` where subtraction occurs
  (`length = byte2 + 1 - byte1` can be negative), `Nat` otherwise.
- moviepy metadata (`VideoFileClip`) is `FileInfo.clip : Option Clip`;
  `none` means the `with VideoFileClip(...)` block raised, carrying the
  exception text in `FileInfo.videoError`.
- Numeric interpolations inside Python reason f-strings use `:.2f` float
  formatting; the embedded reason strings keep the static text and splice
  `toString` of the exact value instead (no claim inspects these digits).
-/

/-- A Python value as it occurs in the dictionaries of `app.py`. -/
inductive PyVal where
  | b (x : Bool)
  | s (x : String)
  | q (x : ℚ)
  | n (x : Nat)
deriving DecidableEq

/-- A Python dict with string keys, as an association list. -/
abbrev PyDict := List (String × PyVal)

/-- `d[k]` as an `Option` (a `none` models a `KeyError`). -/
def dictLookup (d : PyDict) (k : String) : Option PyVal :=
  match d with
  | [] => none
  | (k2, v) :: rest => if k2 = k then some v else dictLookup rest k

/-- Python `d.get(k, default)`. -/
def dictGet (d : PyDict) (k : String) (default : PyVal) : PyVal :=
  (dictLookup d k).getD default

/-- Python truthiness of a `PyVal` (`if not x`). -/
def truthy : PyVal → Bool
  | .b x => x
  | .s x => decide (x ≠ "")
  | .q x => decide (x ≠ 0)
  | .n x => decide (x ≠ 0)

/-- Python `str()` of a `PyVal`, as interpolated into f-strings. -/
def pyStr : PyVal → String
  | .b x => if x then "True" else "False"
  | .s x => x
  | .q x => toString x
  | .n x => toString x

/-- Metadata that `moviepy.VideoFileClip` exposes for an opened clip. -/
structure Clip where
  duration : ℚ
  width : Nat
  height : Nat
  fps : ℚ
deriving DecidableEq

/-- The file-system facts `validate_video_file` observes about its path:
`os.path.exists`, `os.path.getsize`, and the result of opening the clip
(`clip = none` means `VideoFileClip(file_path)` raised, with exception
text `videoError`). -/
structure FileInfo where
  fexists : Bool
  size : Nat
  clip : Option Clip
  videoError : String
deriving DecidableEq

/-- `max_file_size = 2 * 1024 * 1024 * 1024` (2 GB) from `validate_video_file`. -/
def maxFileSize : Nat := 2 * 1024 * 1024 * 1024

/-- `max_duration = 3 * 60 * 60 = 10800` seconds (3 hours) from
`validate_video_file` (written as the literal so that comparisons reduce). -/
def maxDuration : ℚ := 10800

/-- Embedding of `validate_video_file` (`src/app.py`): existence check,
2 GB size cap, moviepy open, 3-hour duration cap, 640x360 minimum
resolution; on success the returned dict carries the metadata and no
`reason` (and never a `mime_type` key). -/
def validate_video_file (info : FileInfo) : PyDict :=
  if info.fexists = false then
    [("valid", .b false), ("reason", .s "File does not exist")]
  else if maxFileSize < info.size then
    [("valid", .b false),
     ("reason", .s ("File too large. Max size is 2GB. Current size: " ++
       toString info.size ++ " bytes"))]
  else
    match info.clip with
    | none =>
      [("valid", .b false),
       ("reason", .s ("Unable to process video: " ++ info.videoError))]
    | some v =>
      if maxDuration < v.duration then
        [("valid", .b false),
         ("reason", .s ("Video too long. Max duration is 3 hours. Current duration: " ++
           toString v.duration ++ " seconds"))]
      else if v.width < 640 ∨ v.height < 360 then
        [("valid", .b false),
         ("reason", .s ("Low resolution. Minimum 640x360 required. Current: " ++
           toString v.width ++ "x" ++ toString v.height))]
      else
        [("valid", .b true), ("duration", .q v.duration), ("width", .n v.width),
         ("height", .n v.height), ("fps", .q v.fps)]

/-- What one entry of `conversion_methods` in `safe_convert_video` returned
when it did not raise: a string (a path — method 1 and method 3 return
strings) or a non-string (method 2 returns a `subprocess.CompletedProcess`). -/
inductive MethodResult where
  | path (p : String)
  | proc
deriving DecidableEq

/-- `result if isinstance(result, str) else file_path` from the loop body of
`safe_convert_video`. -/
def methodReturn (file_path : String) : MethodResult → String
  | .path p => p
  | .proc => file_path

/-- The `for method in conversion_methods` loop of `safe_convert_video`:
first non-raising method wins; after the loop, `return file_path`. -/
def runMethods (file_path : String) : List (Option MethodResult) → String
  | [] => file_path
  | none :: rest => runMethods file_path rest
  | some r :: _ => methodReturn file_path r

/-- Embedding of `safe_convert_video` (`src/app.py`), called from `stream`
with `output_path = None`. `conv1`/`conv2` are the outcomes of the two
converting strategies (FFmpeg via `convert_video_to_mp4`, and a direct
`subprocess.run` FFmpeg call); the third entry is `lambda: file_path`,
which always succeeds and returns the original path. -/
def safe_convert_video (file_path : String) (conv1 conv2 : Option MethodResult) : String :=
  runMethods file_path [conv1, conv2, some (.path file_path)]

/-- The environment `stream` runs in: disk contents, readability, the
conversion-strategy outcomes, and `app.config.get('STREAM_CHUNK_SIZE', 10 MiB)`. -/
structure StreamEnv where
  fileContent : String → List Nat
  readable : String → Bool
  conv1 : Option MethodResult
  conv2 : Option MethodResult
  chunkSize : Nat

/-- The `Range` request header as `stream` consumes it: absent, present but
not matched by `re.search(r'(\d+)-(\d*)', ...)` (then `match.groups()`
raises `AttributeError`, caught by the outer `except`), or parsed into
`byte1` and optional `byte2`. -/
inductive RangeHeader where
  | absent
  | malformed
  | parsed (byte1 : Nat) (byte2 : Option Nat)
deriving DecidableEq

/-- The observable parts of a Flask `Response` built by `stream`.
`cleanupOnClose` records whether `response.call_on_close(... os.unlink ...)`
was registered. The `Content-Disposition` and `X-Video-Metadata` headers of
the full-file branch are not modelled (no claim mentions them). -/
structure HttpResponse where
  status : Nat
  body : List Nat
  contentType : String
  contentRange : Option String
  contentLength : Option String
  acceptRanges : Bool
  xVideoOriginalType : Option String
  cleanupOnClose : Bool
deriving DecidableEq

/-- What `stream` returns: either `flash(msg); redirect(url_for('index'))`
(an HTTP 302) or a built `Response`. -/
inductive StreamResult where
  | redirectIndex (flashMsg : String)
  | response (r : HttpResponse)
deriving DecidableEq

/-- The HTTP status of a `StreamResult` (a Flask redirect is 302). -/
def statusOf : StreamResult → Nat
  | .redirectIndex _ => 302
  | .response r => r.status

/-- The `Content-Type` of a `StreamResult`, when it is a response. -/
def contentTypeOf : StreamResult → Option String
  | .redirectIndex _ => none
  | .response r => some r.contentType

/-- The body of a `StreamResult` (a redirect carries no modelled body). -/
def bodyOf : StreamResult → List Nat
  | .redirectIndex _ => []
  | .response r => r.body

/-- Whether post-close cleanup was scheduled on a `StreamResult`. -/
def cleanupOf : StreamResult → Bool
  | .redirectIndex _ => false
  | .response r => r.cleanupOnClose

/-- `length = byte2 + 1 - byte1` when `byte2` was captured, else
`file_size - byte1`, over Python ints. -/
def rangeLength (file_size : Nat) (byte1 : Nat) (byte2 : Option Nat) : ℤ :=
  match byte2 with
  | some e => (e : ℤ) + 1 - (byte1 : ℤ)
  | none => (file_size : ℤ) - (byte1 : ℤ)

/-- `f.seek(byte1); f.read(length)`: a negative `length` makes Python read
to end of file; otherwise at most `length` bytes are returned. -/
def rangeData (content : List Nat) (byte1 : Nat) (byte2 : Option Nat) : List Nat :=
  if rangeLength content.length byte1 byte2 < 0 then
    content.drop byte1
  else
    (content.drop byte1).take (rangeLength content.length byte1 byte2).toNat

/-- The `generate()` while-loop of `stream`: repeatedly `read(chunkSize)`
until the read is falsy. The fuel argument bounds the iteration count;
`l.length` iterations always suffice because each pass consumes at least
one byte when `chunkSize > 0`, and `read(0)` is falsy at once. -/
def readChunksAux (fuel : Nat) (chunkSize : Nat) (l : List Nat) : List (List Nat) :=
  match fuel with
  | 0 => []
  | fuel' + 1 =>
    if chunkSize = 0 then []
    else
      match l with
      | [] => []
      | x :: xs =>
        (x :: xs).take chunkSize :: readChunksAux fuel' chunkSize ((x :: xs).drop chunkSize)

/-- The chunk sequence yielded by `generate()` for a file with bytes `l`. -/
def readChunks (chunkSize : Nat) (l : List Nat) : List (List Nat) :=
  readChunksAux l.length chunkSize l

/-- The `converted_path` computed by `stream`: `safe_convert_video` runs only
when `video_validation.get('mime_type', 'video/mp4')` differs from
`'video/mp4'`; otherwise the original path is kept. -/
def resolvedPath (env : StreamEnv) (file_path : String) (validation : PyDict) : String :=
  if dictGet validation "mime_type" (.s "video/mp4") ≠ .s "video/mp4" then
    safe_convert_video file_path env.conv1 env.conv2
  else
    file_path

/-- Embedding of the body of `stream` (`src/app.py`) from the
`validate_video_file` call on: the validity gate, conversion decision,
readability check, then the ranged (206) or full (200) response. The
validation dict is a parameter so that this is exactly the code downstream
of the `video_validation = validate_video_file(file_path)` line. -/
def streamCore (env : StreamEnv) (file_path : String) (validation : PyDict)
    (rangeHdr : RangeHeader) : StreamResult :=
  match dictLookup validation "valid" with
  | none =>
    .redirectIndex "An unexpected error occurred while streaming the video."
  | some validVal =>
    if truthy validVal = false then
      .redirectIndex ("Video processing error: " ++
        pyStr (dictGet validation "reason" (.s "Unknown error")))
    else
      let converted_path := resolvedPath env file_path validation
      if env.readable converted_path = false then
        .redirectIndex "Unable to read video file."
      else
        let content := env.fileContent converted_path
        let file_size := content.length
        match rangeHdr with
        | .malformed =>
          .redirectIndex "An unexpected error occurred while streaming the video."
        | .parsed byte1 byte2 =>
          .response
            { status := 206
              body := rangeData content byte1 byte2
              contentType := "video/mp4"
              contentRange := some ("bytes " ++ toString (byte1 : ℤ) ++ "-" ++
                toString ((byte1 : ℤ) + rangeLength file_size byte1 byte2 - 1) ++
                "/" ++ toString (file_size : ℤ))
              contentLength := some (toString (rangeLength file_size byte1 byte2))
              acceptRanges := true
              xVideoOriginalType := none
              cleanupOnClose := false }
        | .absent =>
          .response
            { status := 200
              body := (readChunks env.chunkSize content).flatten
              contentType := "video/mp4"
              contentRange := none
              contentLength := some (toString file_size)
              acceptRanges := true
              xVideoOriginalType :=
                some (pyStr (dictGet validation "mime_type" (.s "video/mp4")))
              cleanupOnClose := !(converted_path == file_path) }

/-- Embedding of the `stream` route handler: the `os.path.exists` guard,
then `streamCore` on the result of `validate_video_file`. -/
def stream (env : StreamEnv) (file_path : String) (info : FileInfo)
    (rangeHdr : RangeHeader) : StreamResult :=
  if info.fexists = false then
    .redirectIndex "Video file not found."
  else
    streamCore env file_path (validate_video_file info) rangeHdr

/-- The validation gate of the `/upload` route (`src/app.py`): when
`video_validation['valid']` is falsy the file is unlinked and a 400 JSON
error with `video_validation.get('reason', 'Invalid video file')` is
returned (`some (status, message)`); `none` means the upload proceeds.
A missing `valid` key would raise and hit the route's 500 handler. -/
def uploadResponse (d : PyDict) : Option (Nat × String) :=
  match dictLookup d "valid" with
  | some v =>
    if truthy v then none
    else some (400, pyStr (dictGet d "reason" (.s "Invalid video file")))
  | none => some (500, "Unexpected error during file upload")

/-! Concrete instances used by counterexamples and witnesses. -/

/-- A healthy clip: 60 s, 1280x720, 30 fps. -/
def clip0 : Clip := { duration := 60, width := 1280, height := 720, fps := 30 }

/-- A stored 5-byte asset named `f`, readable, no conversion strategies
succeeding, default 10 MiB chunk size. -/
def env0 : StreamEnv :=
  { fileContent := (fun p => if p = "f" then [1, 2, 3, 4, 5] else []),
    readable := (fun _ => true),
    conv1 := none,
    conv2 := none,
    chunkSize := 10485760 }

/-- A present, valid 5-byte video file (matching `env0`'s content). -/
def info0 : FileInfo :=
  { fexists := true, size := 5, clip := some clip0, videoError := "" }

/-- A file absent from storage. -/
def info404 : FileInfo :=
  { fexists := false, size := 0, clip := none, videoError := "" }

/-- A present, small file that `VideoFileClip` fails to open. -/
def infoNoClip : FileInfo :=
  { fexists := true, size := 1000, clip := none, videoError := "OSError" }

/-- A present file whose clip is below the 640x360 minimum resolution. -/
def info10 : FileInfo :=
  { fexists := true, size := 5,
    clip := some { duration := 60, width := 320, height := 240, fps := 24 },
    videoError := "" }

/-- A validation dict reporting a non-MP4 container, as the conversion
branch of `stream` would need to see it. -/
def dictMkv : PyDict := [("valid", .b true), ("mime_type", .s "video/x-matroska")]

/-- A 3-byte `.mkv` asset with every converting strategy failing. -/
def envC3 : StreamEnv :=
  { fileContent := (fun p => if p = "m.mkv" then [7, 8, 9] else []),
    readable := (fun _ => true),
    conv1 := none,
    conv2 := none,
    chunkSize := 10485760 }

/-- A 3-byte `.mkv` asset whose first conversion strategy succeeds,
producing a 2-byte temporary file at another path. -/
def envC9 : StreamEnv :=
  { fileContent :=
      (fun p => if p = "/tmp/conv.mp4" then [5, 6]
                else if p = "m.mkv" then [7, 8, 9] else []),
    readable := (fun _ => true),
    conv1 := some (.path "/tmp/conv.mp4"),
    conv2 := none,
    chunkSize := 10485760 }

/-- The full (200) response `streamCore` builds for `envC3` / `dictMkv`. -/
def respC3 : HttpResponse :=
  { status := 200, body := [7, 8, 9], contentType := "video/mp4",
    contentRange := none, contentLength := some "3", acceptRanges := true,
    xVideoOriginalType := some "video/x-matroska", cleanupOnClose := false }

/-! Helper lemmas. -/

/-- Printing an `Int` obtained by casting a `Nat` agrees with printing the `Nat`. -/
theorem toString_intCast (n : Nat) : toString (n : ℤ) = toString n := rfl

/-- With a positive chunk size and enough fuel, the yielded chunks
concatenate back to the file. -/
theorem readChunksAux_flatten (c : Nat) (hc : 0 < c) :
    ∀ (fuel : Nat) (l : List Nat), l.length ≤ fuel →
      (readChunksAux fuel c l).flatten = l := by
  intro fuel
  induction fuel with
  | zero =>
    intro l hl
    have hnil : l = [] := List.eq_nil_of_length_eq_zero (Nat.le_zero.mp hl)
    simp [hnil, readChunksAux]
  | succ n ih =>
    intro l hl
    match l with
    | [] => simp [readChunksAux]
    | x :: xs =>
      rw [readChunksAux]
      rw [if_neg (Nat.pos_iff_ne_zero.mp hc)]
      simp only [List.flatten_cons]
      rw [ih]
      · exact List.take_append_drop c (x :: xs)
      · simp only [List.length_drop, List.length_cons] at *
        omega
/-- The `generate()` loop reproduces the whole file when the configured
chunk size is positive. -/
theorem readChunks_flatten (c : Nat) (l : List Nat) (hc : 0 < c) :
    (readChunks c l).flatten = l :=
  readChunksAux_flatten c hc l.length l (Nat.le_refl _)

/-- A fully valid input makes `validate_video_file` return the metadata
dict (`valid = True`, no `reason`, no `mime_type`). -/
theorem validate_ok (info : FileInfo) (c : Clip) (hex : info.fexists = true)
    (hsize : info.size ≤ maxFileSize) (hclip : info.clip = some c)
    (hdur : c.duration ≤ maxDuration) (hw : 640 ≤ c.width) (hh : 360 ≤ c.height) :
    validate_video_file info =
      [("valid", .b true), ("duration", .q c.duration), ("width", .n c.width),
       ("height", .n c.height), ("fps", .q c.fps)] := by
  simp only [validate_video_file, hex, hclip, Bool.true_eq_false, if_false,
    if_neg (not_lt.mpr hsize), if_neg (not_lt.mpr hdur),
    if_neg (show ¬(c.width < 640 ∨ c.height < 360) by omega)]

/-- `validate_video_file` never puts a `mime_type` key in its result. -/
theorem validate_mime_none (info : FileInfo) :
    dictLookup (validate_video_file info) "mime_type" = none := by
  unfold validate_video_file
  repeat' split
  all_goals simp [dictLookup]

/-- Hence `stream` never takes the conversion branch: the resolved path on
the result of `validate_video_file` is always the original path. -/
theorem resolvedPath_validate (env : StreamEnv) (fp : String) (info : FileInfo) :
    resolvedPath env fp (validate_video_file info) = fp := by
  unfold resolvedPath dictGet
  rw [validate_mime_none]
  simp

/-- Shape of the 206 response: with a truthy `valid` entry, a readable
resolved path, and a parsed range header, `streamCore` builds the
partial-content response and schedules no cleanup. -/
theorem streamCore_parsed_eq (env : StreamEnv) (fp : String) (d : PyDict) (v : PyVal)
    (hv : dictLookup d "valid" = some v) (ht : truthy v = true)
    (hread : env.readable (resolvedPath env fp d) = true)
    (b1 : Nat) (b2 : Option Nat) :
    streamCore env fp d (.parsed b1 b2) =
      .response
        { status := 206
          body := rangeData (env.fileContent (resolvedPath env fp d)) b1 b2
          contentType := "video/mp4"
          contentRange := some ("bytes " ++ toString (b1 : ℤ) ++ "-" ++
            toString ((b1 : ℤ) +
              rangeLength (env.fileContent (resolvedPath env fp d)).length b1 b2 - 1) ++
            "/" ++ toString ((env.fileContent (resolvedPath env fp d)).length : ℤ))
          contentLength :=
            some (toString (rangeLength (env.fileContent (resolvedPath env fp d)).length b1 b2))
          acceptRanges := true
          xVideoOriginalType := none
          cleanupOnClose := false } := by
  unfold streamCore
  rw [hv]
  simp only [ht, hread, Bool.true_eq_false, if_false]

/-- Shape of the 200 response: with a truthy `valid` entry, a readable
resolved path, and no range header, `streamCore` streams the whole file in
chunks and schedules cleanup exactly when the resolved path is new. -/
theorem streamCore_absent_eq (env : StreamEnv) (fp : String) (d : PyDict) (v : PyVal)
    (hv : dictLookup d "valid" = some v) (ht : truthy v = true)
    (hread : env.readable (resolvedPath env fp d) = true) :
    streamCore env fp d .absent =
      .response
        { status := 200
          body := (readChunks env.chunkSize (env.fileContent (resolvedPath env fp d))).flatten
          contentType := "video/mp4"
          contentRange := none
          contentLength := some (toString (env.fileContent (resolvedPath env fp d)).length)
          acceptRanges := true
          xVideoOriginalType := some (pyStr (dictGet d "mime_type" (.s "video/mp4")))
          cleanupOnClose := !(resolvedPath env fp d == fp) } := by
  unfold streamCore
  rw [hv]
  simp only [ht, hread, Bool.true_eq_false, if_false]

/-- On an existing file, `stream` defers to `streamCore` on the validation
result. -/
theorem stream_exists_eq (env : StreamEnv) (fp : String) (info : FileInfo)
    (hdr : RangeHeader) (hex : info.fexists = true) :
    stream env fp info hdr = streamCore env fp (validate_video_file info) hdr := by
  unfold stream
  rw [hex]
  simp

/-! Claim theorems. -/

/-- C4: for every file path, the dict returned by `validate_video_file`
contains no `mime_type` key, so in `stream` the expression
`video_validation.get('mime_type', 'video/mp4')` yields `'video/mp4'`, the
`safe_convert_video` branch is unreachable from `stream`, and the resolved
(served) path is always the originally stored file. -/
theorem C4_no_mime_key (info : FileInfo) :
    dictLookup (validate_video_file info) "mime_type" = none ∧
    dictGet (validate_video_file info) "mime_type" (.s "video/mp4") = .s "video/mp4" ∧
    ∀ (env : StreamEnv) (fp : String),
      resolvedPath env fp (validate_video_file info) = fp := by
  refine ⟨validate_mime_none info, ?_, fun env fp => resolvedPath_validate env fp info⟩
  unfold dictGet
  rw [validate_mime_none info]
  rfl

/-- C6: `safe_convert_video` tries its conversion strategies in fixed
order; the first non-raising strategy determines the returned value (a
string result is returned as-is, a non-string result falls back to the
original path), and when both converting strategies fail the always-
succeeding final strategy returns the original path — no error is raised. -/
theorem C6_fallback_order (fp : String) (c1 c2 : Option MethodResult) :
    (∀ r : MethodResult, c1 = some r →
      safe_convert_video fp c1 c2 = methodReturn fp r) ∧
    (∀ r : MethodResult, c1 = none → c2 = some r →
      safe_convert_video fp c1 c2 = methodReturn fp r) ∧
    (c1 = none → c2 = none → safe_convert_video fp c1 c2 = fp) := by
  refine ⟨?_, ?_, ?_⟩ <;> intros <;> subst_vars <;> rfl

/-- C6 witness: both converting strategies fail on `movie.mkv`, so the
original path comes back; a succeeding first strategy's path is returned. -/
theorem C6_witness :
    safe_convert_video "movie.mkv" none none = "movie.mkv" ∧
    safe_convert_video "movie.mkv" (some (.path "/tmp/out.mp4")) none = "/tmp/out.mp4" :=
  ⟨(C6_fallback_order "movie.mkv" none none).2.2 rfl rfl,
   (C6_fallback_order "movie.mkv" (some (.path "/tmp/out.mp4")) none).1 _ rfl⟩

/-- C7 counterexample: a present, small file whose metadata cannot be
extracted (`VideoFileClip` raises) is NOT accepted — `validate_video_file`
reports `valid = False`, refuting the claim that extraction failure only
leaves metadata absent. -/
theorem C7_counterexample :
    dictLookup (validate_video_file infoNoClip) "valid" = some (.b false) ∧
    some (PyVal.b false) ≠ some (PyVal.b true) := by decide

/-- C7 amended: for every existing file within the size cap whose metadata
cannot be extracted, `validate_video_file` rejects the file with reason
`Unable to process video: ...` (so upload and streaming refuse it), rather
than accepting it with `metadata = None`. -/
theorem C7_reject_on_clip_failure (info : FileInfo) (hex : info.fexists = true)
    (hsize : info.size ≤ maxFileSize) (hclip : info.clip = none) :
    validate_video_file info =
      [("valid", .b false),
       ("reason", .s ("Unable to process video: " ++ info.videoError))] := by
  simp only [validate_video_file, hex, hclip, Bool.true_eq_false, if_false,
    if_neg (not_lt.mpr hsize)]

/-- C7 witness: the amended claim at the concrete failing file. -/
theorem C7_witness :
    validate_video_file infoNoClip =
      [("valid", .b false), ("reason", .s "Unable to process video: OSError")] := by
  rw [C7_reject_on_clip_failure infoNoClip rfl (by decide) rfl]
  decide

/-- C8 counterexample: for an asset absent from storage, `stream` flashes
and redirects to the index page — an HTTP 302, not the claimed 404. -/
theorem C8_counterexample :
    stream env0 "f" info404 .absent = .redirectIndex "Video file not found." ∧
    statusOf (stream env0 "f" info404 .absent) = 302 ∧ (302 : Nat) ≠ 404 := by decide

/-- C8 amended: for every request naming an asset absent from storage, the
`stream` operation flashes `Video file not found.` and responds with a 302
redirect to the index page (never a 404). -/
theorem C8_redirect_on_missing (env : StreamEnv) (fp : String) (info : FileInfo)
    (hdr : RangeHeader) (hex : info.fexists = false) :
    stream env fp info hdr = .redirectIndex "Video file not found." ∧
    statusOf (stream env fp info hdr) = 302 := by
  unfold stream
  rw [hex]
  exact ⟨rfl, rfl⟩

/-- C8 witness: the amended claim at a concrete missing asset with a
ranged request. -/
theorem C8_witness :
    stream env0 "g" info404 (.parsed 0 none) = .redirectIndex "Video file not found." ∧
    statusOf (stream env0 "g" info404 (.parsed 0 none)) = 302 :=
  C8_redirect_on_missing env0 "g" info404 (.parsed 0 none) rfl

/-- Any of the three undocumented limits forces the rejection shape
`[valid: False, reason: ...]` out of `validate_video_file`. -/
theorem validate_bad (info : FileInfo) (c : Clip) (hex : info.fexists = true)
    (hclip : info.clip = some c)
    (hbad : maxFileSize < info.size ∨ maxDuration < c.duration ∨
      c.width < 640 ∨ c.height < 360) :
    ∃ reason : String,
      validate_video_file info = [("valid", .b false), ("reason", .s reason)] := by
  by_cases hsz : maxFileSize < info.size
  · refine ⟨"File too large. Max size is 2GB. Current size: " ++
      toString info.size ++ " bytes", ?_⟩
    simp only [validate_video_file, hex, Bool.true_eq_false, if_false, if_pos hsz]
  · by_cases hd : maxDuration < c.duration
    · refine ⟨"Video too long. Max duration is 3 hours. Current duration: " ++
        toString c.duration ++ " seconds", ?_⟩
      simp only [validate_video_file, hex, hclip, Bool.true_eq_false,
        if_false, if_neg hsz, if_pos hd]
    · by_cases hr : c.width < 640 ∨ c.height < 360
      · refine ⟨"Low resolution. Minimum 640x360 required. Current: " ++
          toString c.width ++ "x" ++ toString c.height, ?_⟩
        simp only [validate_video_file, hex, hclip, Bool.true_eq_false,
          if_false, if_neg hsz, if_neg hd, if_pos hr]
      · rcases hbad with h | h | h | h
        · exact absurd h hsz
        · exact absurd h hd
        · exact absurd (Or.inl h) hr
        · exact absurd (Or.inr h) hr

/-- C10: `validate_video_file` rejects every file larger than 2 GiB, every
video longer than 3 hours, and every video below 640x360 — and on a
rejected asset the `stream` route flashes the reason and redirects while
the `/upload` route answers 400 with the reason, limits the specification
never mentions. -/
theorem C10_undocumented_limits (info : FileInfo) (c : Clip)
    (hex : info.fexists = true) (hclip : info.clip = some c)
    (hbad : maxFileSize < info.size ∨ maxDuration < c.duration ∨
      c.width < 640 ∨ c.height < 360) :
    dictLookup (validate_video_file info) "valid" = some (.b false) ∧
    (dictLookup (validate_video_file info) "reason").isSome = true ∧
    (∀ (env : StreamEnv) (fp : String) (hdr : RangeHeader),
      stream env fp info hdr = .redirectIndex ("Video processing error: " ++
        pyStr (dictGet (validate_video_file info) "reason" (.s "Unknown error")))) ∧
    uploadResponse (validate_video_file info) =
      some (400, pyStr (dictGet (validate_video_file info) "reason"
        (.s "Invalid video file"))) := by
  obtain ⟨reason, hval⟩ := validate_bad info c hex hclip hbad
  rw [hval]
  refine ⟨by simp [dictLookup], by simp [dictLookup], ?_, by simp [uploadResponse,
    dictLookup, dictGet, truthy, pyStr]⟩
  intro env fp hdr
  rw [stream_exists_eq env fp info hdr hex, hval]
  unfold streamCore
  simp [dictLookup, truthy]

/-- C10 witness: a present 320x240 clip is rejected; `stream` redirects
with the flashed reason and `/upload` answers 400 with the reason. -/
theorem C10_witness :
    dictLookup (validate_video_file info10) "valid" = some (.b false) ∧
    stream env0 "f" info10 .absent = .redirectIndex
      "Video processing error: Low resolution. Minimum 640x360 required. Current: 320x240" ∧
    uploadResponse (validate_video_file info10) =
      some (400, "Low resolution. Minimum 640x360 required. Current: 320x240") := by
  obtain ⟨h1, h2, h3, h4⟩ :=
    C10_undocumented_limits info10
      { duration := 60, width := 320, height := 240, fps := 24 }
      rfl rfl (by decide)
  refine ⟨h1, ?_, ?_⟩
  · rw [h3 env0 "f" .absent]; decide
  · rw [h4]; decide

/-- For an in-bounds range (with a missing end defaulting to the last
byte), the eager read returns exactly the requested slice. -/
theorem rangeData_in_range (l : List Nat) (start e : Nat) (endOpt : Option Nat)
    (he : e = endOpt.getD (l.length - 1)) (hse : start ≤ e) (heS : e < l.length) :
    rangeData l start endOpt = (l.drop start).take (e - start + 1) := by
  rcases endOpt with _ | b2
  · simp only [Option.getD_none] at he
    simp only [rangeData, rangeLength]
    rw [if_neg (by omega)]
    congr 1
    omega
  · simp only [Option.getD_some] at he
    simp only [rangeData, rangeLength]
    rw [if_neg (by omega)]
    congr 1
    omega

/-- For an in-bounds range the Python length is `e - start + 1` and the
upper endpoint `byte1 + length - 1` equals `e`. -/
theorem rangeLength_in_range (L start e : Nat) (endOpt : Option Nat)
    (he : e = endOpt.getD (L - 1)) (hse : start ≤ e) (heS : e < L) :
    rangeLength L start endOpt = ((e - start + 1 : Nat) : ℤ) ∧
    (start : ℤ) + rangeLength L start endOpt - 1 = ((e : Nat) : ℤ) := by
  rcases endOpt with _ | b2 <;> simp only [Option.getD_none, Option.getD_some] at he <;>
    simp only [rangeLength] <;> constructor <;> omega

/-- C2: for every existing valid asset of size `S` and a range
`bytes=start-end` with `0 <= start <= end < S` (a missing `end` defaulting
to `S - 1`), `stream` responds 206 with body exactly bytes `start..end` of
the served file, `Content-Length = end - start + 1`, and
`Content-Range = bytes start-end/S`. -/
theorem C2_valid_range (env : StreamEnv) (fp : String) (info : FileInfo) (c : Clip)
    (hex : info.fexists = true) (hsize : info.size ≤ maxFileSize)
    (hclip : info.clip = some c) (hdur : c.duration ≤ maxDuration)
    (hw : 640 ≤ c.width) (hh : 360 ≤ c.height)
    (hread : env.readable fp = true)
    (S e start : Nat) (endOpt : Option Nat)
    (hS : S = (env.fileContent fp).length)
    (he : e = endOpt.getD (S - 1))
    (hse : start ≤ e) (heS : e < S) :
    ∃ r : HttpResponse,
      stream env fp info (.parsed start endOpt) = .response r ∧
      r.status = 206 ∧
      r.body = ((env.fileContent fp).drop start).take (e - start + 1) ∧
      r.body.length = e - start + 1 ∧
      r.contentLength = some (toString (e - start + 1)) ∧
      r.contentRange = some ("bytes " ++ toString start ++ "-" ++ toString e ++
        "/" ++ toString S) ∧
      r.contentType = "video/mp4" ∧
      r.acceptRanges = true := by
  have hres : resolvedPath env fp (validate_video_file info) = fp :=
    resolvedPath_validate env fp info
  have hv : dictLookup (validate_video_file info) "valid" = some (.b true) := by
    rw [validate_ok info c hex hsize hclip hdur hw hh]
    rfl
  have hread2 : env.readable (resolvedPath env fp (validate_video_file info)) = true := by
    rw [hres]
    exact hread
  have hlen := rangeLength_in_range (env.fileContent fp).length start e endOpt
    (by rw [← hS]; exact he) hse (by rw [← hS]; exact heS)
  rw [stream_exists_eq env fp info _ hex,
    streamCore_parsed_eq env fp (validate_video_file info) (.b true) hv rfl hread2
      start endOpt, hres]
  refine ⟨_, rfl, rfl, ?_, ?_, ?_, ?_, rfl, rfl⟩
  · exact rangeData_in_range (env.fileContent fp) start e endOpt
      (by rw [← hS]; exact he) hse (by rw [← hS]; exact heS)
  · rw [rangeData_in_range (env.fileContent fp) start e endOpt
      (by rw [← hS]; exact he) hse (by rw [← hS]; exact heS)]
    simp only [List.length_take, List.length_drop]
    omega
  · rw [hlen.1]
    exact congrArg some (toString_intCast (e - start + 1))
  · rw [hlen.2, toString_intCast, toString_intCast, toString_intCast, ← hS]

/-- C2 witness: on the 5-byte asset, `bytes=1-3` yields a 206 with body
bytes 1..3, length 3, and `Content-Range: bytes 1-3/5`. -/
theorem C2_witness :
    ∃ r : HttpResponse,
      stream env0 "f" info0 (.parsed 1 (some 3)) = .response r ∧
      r.status = 206 ∧ r.body = [2, 3, 4] ∧ r.body.length = 3 ∧
      r.contentLength = some "3" ∧ r.contentRange = some "bytes 1-3/5" := by
  obtain ⟨r, hr, h1, h2, h3, h4, h5, h6, h7⟩ :=
    C2_valid_range env0 "f" info0 clip0 rfl (by decide) rfl (by decide) (by decide)
      (by decide) rfl 5 3 1 (some 3) (by decide) rfl (by decide) (by decide)
  refine ⟨r, hr, h1, ?_, ?_, ?_, ?_⟩
  · rw [h2]; decide
  · rw [h3]
  · rw [h4]; decide
  · rw [h5]; decide

/-- C5: for every existing valid asset and a request with no `Range`
header, `stream` responds 200, the concatenation of the fixed-size chunks
equals the whole file (so the body length is the asset size `S`),
`Content-Length = S`, and `Accept-Ranges: bytes` is set. -/
theorem C5_full_content (env : StreamEnv) (fp : String) (info : FileInfo) (c : Clip)
    (hex : info.fexists = true) (hsize : info.size ≤ maxFileSize)
    (hclip : info.clip = some c) (hdur : c.duration ≤ maxDuration)
    (hw : 640 ≤ c.width) (hh : 360 ≤ c.height)
    (hread : env.readable fp = true) (hchunk : 0 < env.chunkSize) :
    ∃ r : HttpResponse,
      stream env fp info .absent = .response r ∧
      r.status = 200 ∧
      r.body = (readChunks env.chunkSize (env.fileContent fp)).flatten ∧
      r.body = env.fileContent fp ∧
      r.body.length = (env.fileContent fp).length ∧
      r.contentLength = some (toString (env.fileContent fp).length) ∧
      r.acceptRanges = true := by
  have hres : resolvedPath env fp (validate_video_file info) = fp :=
    resolvedPath_validate env fp info
  have hv : dictLookup (validate_video_file info) "valid" = some (.b true) := by
    rw [validate_ok info c hex hsize hclip hdur hw hh]
    rfl
  have hread2 : env.readable (resolvedPath env fp (validate_video_file info)) = true := by
    rw [hres]
    exact hread
  rw [stream_exists_eq env fp info _ hex,
    streamCore_absent_eq env fp (validate_video_file info) (.b true) hv rfl hread2, hres]
  refine ⟨_, rfl, rfl, rfl, ?_, ?_, rfl, rfl⟩
  · exact readChunks_flatten env.chunkSize (env.fileContent fp) hchunk
  · rw [readChunks_flatten env.chunkSize (env.fileContent fp) hchunk]

/-- C5 witness: the whole 5-byte asset is served in one chunk. -/
theorem C5_witness :
    ∃ r : HttpResponse,
      stream env0 "f" info0 .absent = .response r ∧
      r.status = 200 ∧ r.body = [1, 2, 3, 4, 5] ∧ r.body.length = 5 ∧
      r.contentLength = some "5" ∧ r.acceptRanges = true := by
  obtain ⟨r, hr, h1, h2, h3, h4, h5, h6⟩ :=
    C5_full_content env0 "f" info0 clip0 rfl (by decide) rfl (by decide) (by decide)
      (by decide) rfl (by decide)
  refine ⟨r, hr, h1, ?_, ?_, ?_, h6⟩
  · rw [h3]; decide
  · rw [h4]; decide
  · rw [h5]; decide

/-- A range read that starts at or past the end of the file returns no
bytes (the seek lands at or past EOF). -/
theorem rangeData_past_end (l : List Nat) (start e : Nat)
    (hstart : l.length ≤ start) (hse : start ≤ e) :
    rangeData l start (some e) = [] := by
  simp only [rangeData, rangeLength]
  rw [if_neg (by omega), List.drop_eq_nil_of_le hstart, List.take_nil]

/-- With an explicit end at least `start`, the Python length is
`e - start + 1` and `byte1 + length - 1` is `e`, whatever the file size. -/
theorem rangeLength_some (L start e : Nat) (hse : start ≤ e) :
    rangeLength L start (some e) = ((e - start + 1 : Nat) : ℤ) ∧
    (start : ℤ) + rangeLength L start (some e) - 1 = ((e : Nat) : ℤ) := by
  simp only [rangeLength]
  constructor <;> omega

/-- C1 counterexample: `bytes=10-12` against the existing valid 5-byte
asset produces a 206 (not 416) with `Content-Range: bytes 10-12/5` (not
`bytes */5`); only the empty body matches the claim. -/
theorem C1_counterexample :
    stream env0 "f" info0 (.parsed 10 (some 12)) =
      .response
        { status := 206
          body := []
          contentType := "video/mp4"
          contentRange := some "bytes 10-12/5"
          contentLength := some "3"
          acceptRanges := true
          xVideoOriginalType := none
          cleanupOnClose := false } ∧
    (206 : Nat) ≠ 416 ∧ ("bytes 10-12/5" : String) ≠ "bytes */5" := by decide

/-- C1 amended: for every existing valid asset of size `S` and a range
`bytes=start-end` with `S <= start <= end`, `stream` responds 206 (never
416) with an empty body, `Content-Length = end - start + 1`, and
`Content-Range: bytes start-end/S` (never `bytes */S`). -/
theorem C1_start_past_size (env : StreamEnv) (fp : String) (info : FileInfo) (c : Clip)
    (hex : info.fexists = true) (hsize : info.size ≤ maxFileSize)
    (hclip : info.clip = some c) (hdur : c.duration ≤ maxDuration)
    (hw : 640 ≤ c.width) (hh : 360 ≤ c.height)
    (hread : env.readable fp = true)
    (S start e : Nat)
    (hS : S = (env.fileContent fp).length)
    (hstart : S ≤ start) (hse : start ≤ e) :
    ∃ r : HttpResponse,
      stream env fp info (.parsed start (some e)) = .response r ∧
      r.status = 206 ∧
      r.body = [] ∧
      r.contentLength = some (toString (e - start + 1)) ∧
      r.contentRange = some ("bytes " ++ toString start ++ "-" ++ toString e ++
        "/" ++ toString S) ∧
      r.status ≠ 416 := by
  have hres : resolvedPath env fp (validate_video_file info) = fp :=
    resolvedPath_validate env fp info
  have hv : dictLookup (validate_video_file info) "valid" = some (.b true) := by
    rw [validate_ok info c hex hsize hclip hdur hw hh]
    rfl
  have hread2 : env.readable (resolvedPath env fp (validate_video_file info)) = true := by
    rw [hres]
    exact hread
  have hlen := rangeLength_some (env.fileContent fp).length start e hse
  rw [stream_exists_eq env fp info _ hex,
    streamCore_parsed_eq env fp (validate_video_file info) (.b true) hv rfl hread2
      start (some e), hres]
  refine ⟨_, rfl, rfl, ?_, ?_, ?_, ?_⟩
  · exact rangeData_past_end (env.fileContent fp) start e (by omega) hse
  · rw [hlen.1]
    exact congrArg some (toString_intCast (e - start + 1))
  · rw [hlen.2, toString_intCast, toString_intCast, toString_intCast, ← hS]
  · show (206 : Nat) ≠ 416
    decide

/-- C1 witness: the amended claim at the concrete out-of-bounds range. -/
theorem C1_witness :
    ∃ r : HttpResponse,
      stream env0 "f" info0 (.parsed 10 (some 12)) = .response r ∧
      r.status = 206 ∧ r.body = [] ∧ r.contentLength = some "3" ∧
      r.contentRange = some "bytes 10-12/5" ∧ r.status ≠ 416 := by
  obtain ⟨r, hr, h1, h2, h3, h4, h5⟩ :=
    C1_start_past_size env0 "f" info0 clip0 rfl (by decide) rfl (by decide)
      (by decide) (by decide) rfl 5 10 12 (by decide) (by decide) (by decide)
  refine ⟨r, hr, h1, h2, ?_, ?_, h5⟩
  · rw [h3]; decide
  · rw [h4]; decide

/-- Every `Response` built by `streamCore` carries
`Content-Type: video/mp4`, whatever the detected MIME type was. -/
theorem streamCore_contentType (env : StreamEnv) (fp : String) (d : PyDict)
    (hdr : RangeHeader) (r : HttpResponse)
    (h : streamCore env fp d hdr = .response r) : r.contentType = "video/mp4" := by
  simp only [streamCore] at h
  repeat' split at h
  all_goals cases h
  all_goals rfl

/-- C3 counterexample: a `.mkv` asset (`mime_type: video/x-matroska`) whose
converting strategies all fail is served with its original bytes, yet the
response claims `Content-Type: video/mp4` — refuting the claim that the
original MIME type is kept. -/
theorem C3_counterexample :
    resolvedPath envC3 "m.mkv" dictMkv = "m.mkv" ∧
    contentTypeOf (streamCore envC3 "m.mkv" dictMkv (.parsed 0 (some 2))) =
      some "video/mp4" ∧
    bodyOf (streamCore envC3 "m.mkv" dictMkv (.parsed 0 (some 2))) = [7, 8, 9] ∧
    ("video/mp4" : String) ≠ "video/x-matroska" := by decide

/-- C3 amended: when every converting strategy fails, the resolved path
(and hence the served bytes) is the original file, but every response
`stream`'s responder builds still sets `Content-Type: video/mp4` — the
original MIME type is never restored. -/
theorem C3_all_fail_mp4_claimed (env : StreamEnv) (fp : String) (d : PyDict)
    (hdr : RangeHeader) (hc1 : env.conv1 = none) (hc2 : env.conv2 = none) :
    resolvedPath env fp d = fp ∧
    ∀ r : HttpResponse, streamCore env fp d hdr = .response r →
      r.contentType = "video/mp4" := by
  constructor
  · unfold resolvedPath
    split
    · rw [hc1, hc2]
      rfl
    · rfl
  · exact fun r h => streamCore_contentType env fp d hdr r h

/-- C3 witness: the amended claim at the concrete all-strategies-fail
`.mkv` asset, whose full response serves the original bytes as mp4. -/
theorem C3_witness :
    resolvedPath envC3 "m.mkv" dictMkv = "m.mkv" ∧
    respC3.contentType = "video/mp4" ∧
    streamCore envC3 "m.mkv" dictMkv .absent = .response respC3 := by
  obtain ⟨h1, h2⟩ := C3_all_fail_mp4_claimed envC3 "m.mkv" dictMkv .absent rfl rfl
  exact ⟨h1, h2 respC3 (by decide), by decide⟩

/-- C9 counterexample: with a successful first conversion strategy and a
ranged request, `streamCore` serves the temporary converted file in a 206
response with NO scheduled deletion — refuting the claim that cleanup is
scheduled on every response serving a converted file. -/
theorem C9_counterexample :
    resolvedPath envC9 "m.mkv" dictMkv = "/tmp/conv.mp4" ∧
    ("/tmp/conv.mp4" : String) ≠ "m.mkv" ∧
    streamCore envC9 "m.mkv" dictMkv (.parsed 0 (some 1)) =
      .response
        { status := 206
          body := [5, 6]
          contentType := "video/mp4"
          contentRange := some "bytes 0-1/2"
          contentLength := some "2"
          acceptRanges := true
          xVideoOriginalType := none
          cleanupOnClose := false } := by decide

/-- C9 amended: deletion of the temporary converted file is scheduled as a
post-close action only on full (200) responses whose resolved path differs
from the original; ranged (206) responses never schedule deletion (and via
`stream` proper, the resolved path never differs — see C4). -/
theorem C9_cleanup_only_on_full (env : StreamEnv) (fp : String) (d : PyDict) (v : PyVal)
    (hv : dictLookup d "valid" = some v) (ht : truthy v = true)
    (hread : env.readable (resolvedPath env fp d) = true) :
    (∀ (b1 : Nat) (b2 : Option Nat),
      cleanupOf (streamCore env fp d (.parsed b1 b2)) = false) ∧
    cleanupOf (streamCore env fp d .absent) =
      !(resolvedPath env fp d == fp) := by
  constructor
  · intro b1 b2
    rw [streamCore_parsed_eq env fp d v hv ht hread b1 b2]
    rfl
  · rw [streamCore_absent_eq env fp d v hv ht hread]
    rfl

/-- C9 witness: at the concrete converted asset, the ranged response
schedules no cleanup while the full response does. -/
theorem C9_witness :
    cleanupOf (streamCore envC9 "m.mkv" dictMkv (.parsed 0 (some 1))) = false ∧
    cleanupOf (streamCore envC9 "m.mkv" dictMkv .absent) = true := by
  obtain ⟨h1, h2⟩ :=
    C9_cleanup_only_on_full envC9 "m.mkv" dictMkv (.b true) (by decide) rfl (by decide)
  refine ⟨h1 0 (some 1), ?_⟩
  rw [h2]
  decide
